import Mathlib

/-!
Shallow embedding of the node-editor canvas core (`src/canvas.ts`).

Numbers are modelled as rationals (`ℚ`): the TypeScript code uses IEEE
doubles, but every claim under scrutiny is about the exact algebra of the
operations, and the arithmetic involved (affine transforms with rotation 0,
additions, scalings, divisions by a nonzero scale) is exact.

The `Store` class lives in `src/store.ts`, which is not part of the sources;
its operations used by the canvas are modelled from the spec (section 6,
"EXTERNAL INTERFACES") and are marked as such.

Mutation is modelled by explicit state passing: each event handler maps a
`Canvas` state to the next `Canvas` state.  The `onUpdate` host callback has
no payload and no return value, so its invocations are modelled by a counter
`updateCount` incremented each time the code calls `this.onUpdate()`.
A TypeScript runtime failure (dereferencing `undefined` under a non-null
assertion `!`) is modelled by `Option`/`none`.
-/

/-- Node identifier (`ID` in `store.ts`). -/
abbrev ID := Nat

/-- `interface Offset { x: number; y: number }` from `canvas.ts`. -/
structure Offset where
  x : ℚ
  y : ℚ
deriving DecidableEq, Repr

/-- `interface CanvasNode extends PositionMixin { backgroundColor?: string }`,
where `PositionMixin = BaseNode & Rect` gives `id`, `name`, position and size. -/
structure CanvasNode where
  id : ID
  x : ℚ
  y : ℚ
  width : ℚ
  height : ℚ
  name : String
  backgroundColor : Option String
deriving DecidableEq, Repr

/-- An edge referencing a start node id and an end node id (`NodeEdge` in `store.ts`). -/
structure NodeEdge where
  startNode : ID
  endNode : ID
deriving DecidableEq, Repr

/-- Modelled from the spec: the Graph Store (`src/store.ts` is not among the
sources).  Per section 6, it owns `nodes` ("a stable-order readable sequence of
all current nodes") and `edges`; both are modelled as lists in iteration order. -/
structure Store where
  nodes : List CanvasNode
  edges : List NodeEdge
deriving DecidableEq, Repr

/-- Modelled from the spec: `retrieveNode(id) -> node or absent` — read one
node by id (spec section 6). -/
def Store.retrieveNode (s : Store) (i : ID) : Option CanvasNode :=
  s.nodes.find? (fun n => n.id == i)

/-- Modelled from the spec: `updateNode(node) -> void` — persist a node's new
position/attributes; no-op if the id is unknown (spec section 6).  Modelled as
replacing the stored node carrying that id. -/
def Store.updateNode (s : Store) (n : CanvasNode) : Store :=
  { s with nodes := s.nodes.map (fun m => if m.id = n.id then n else m) }

/-- The forward matrix `this.matrix = [m0, m1, m2, m3, m4, m5]` of `canvas.ts`
(2D canvas convention: `(x, y) ↦ (m0·x + m2·y + m4, m1·x + m3·y + m5)`). -/
structure Mat where
  m0 : ℚ
  m1 : ℚ
  m2 : ℚ
  m3 : ℚ
  m4 : ℚ
  m5 : ℚ
deriving DecidableEq, Repr

/-- The cached inverse linear part `this.invMatrix = [i0, i1, i2, i3]`. -/
structure InvMat where
  i0 : ℚ
  i1 : ℚ
  i2 : ℚ
  i3 : ℚ
deriving DecidableEq, Repr

/-- The determinant ("cross") term `m[0]*m[3] - m[1]*m[2]` computed inside
`createMatrix`, written out with `m[0] = m[3] = cos(rotate)·scale`,
`m[1] = sin(rotate)·scale`, `m[2] = -m[1]`. -/
def matrixCross (scale cosr sinr : ℚ) : ℚ :=
  (cosr * scale) * (cosr * scale) - (sinr * scale) * (-(sinr * scale))

/-- `Canvas.createMatrix(x, y, scale, rotate)`.  The trigonometric values
`Math.cos(rotate)` and `Math.sin(rotate)` enter as explicit arguments `cosr`,
`sinr`; every call in this repository passes `rotate = 0`, for which
`cos 0 = 1` and `sin 0 = 0` exactly (see `createMatrixRot0`).  Returns the
pair (forward matrix, cached inverse). -/
def createMatrix (x y scale cosr sinr : ℚ) : Mat × InvMat :=
  let m0 := cosr * scale
  let m1 := sinr * scale
  let m2 := -m1
  let m3 := m0
  let cross := matrixCross scale cosr sinr
  (⟨m0, m1, m2, m3, x, y⟩, ⟨m3 / cross, -m1 / cross, -m2 / cross, m0 / cross⟩)

/-- `createMatrix(x, y, scale, 0)`: rotation 0, so `cos = 1` and `sin = 0`. -/
def createMatrixRot0 (x y scale : ℚ) : Mat × InvMat :=
  createMatrix x y scale 1 0

/-- `Canvas.toWorld(x, y)`: subtract the forward translation, then apply the
cached inverse linear part. -/
def toWorld (m : Mat) (im : InvMat) (x y : ℚ) : Offset :=
  let xx := x - m.m4
  let yy := y - m.m5
  ⟨xx * im.i0 + yy * im.i2, xx * im.i1 + yy * im.i3⟩

/-- Application of the forward matrix to a point, in the 2D canvas
`setTransform(a, b, c, d, e, f)` convention used by `paint`:
`(x, y) ↦ (a·x + c·y + e, b·x + d·y + f)`. -/
def applyMatrix (m : Mat) (x y : ℚ) : Offset :=
  ⟨m.m0 * x + m.m2 * y + m.m4, m.m1 * x + m.m3 * y + m.m5⟩

/-- `enum PointerAction { NONE, ZOOM, PAN, MOVE }`. -/
inductive PointerAction where
  | NONE
  | ZOOM
  | PAN
  | MOVE
deriving DecidableEq, Repr

/-- The mutable state of the `Canvas` class relevant to the interaction and
transform logic.  `cursor` models `this.canvas.style.cursor`; `updateCount`
counts invocations of the `onUpdate` host callback. -/
structure Canvas where
  store : Store
  offset : Offset
  scale : ℚ
  action : PointerAction
  lastOffset : Option Offset
  selected : List ID
  hovered : List ID
  matrix : Mat
  invMatrix : InvMat
  cursor : String
  updateCount : Nat
deriving DecidableEq, Repr

/-- The field initializers of the `Canvas` class: zero offset, scale 1, no
action, identity matrices, empty selection and hover sets. -/
def Canvas.init (s : Store) : Canvas :=
  { store := s
    offset := ⟨0, 0⟩
    scale := 1
    action := PointerAction.NONE
    lastOffset := none
    selected := []
    hovered := []
    matrix := ⟨1, 0, 0, 1, 0, 0⟩
    invMatrix := ⟨1, 0, 0, 1⟩
    cursor := "default"
    updateCount := 0 }

/-- The containment test of `getSelection`: the world-space point lies in the
node's axis-aligned rectangle, all four bounds inclusive (the four
comparisons of `canvas.ts` lines 168-171, in source order). -/
def inNodeRect (n : CanvasNode) (p : Offset) : Prop :=
  p.x ≥ n.x ∧ p.x ≤ n.x + n.width ∧ p.y ≥ n.y ∧ p.y ≤ n.y + n.height

instance (n : CanvasNode) (p : Offset) : Decidable (inNodeRect n p) := by
  unfold inNodeRect
  infer_instance

/-- `Canvas.getSelection(target)`: map the screen point to world space via the
current cached matrices, then collect (in store iteration order) the ids of
the nodes whose rectangle contains it. -/
def Canvas.getSelection (c : Canvas) (target : Offset) : List ID :=
  let localOffset := toWorld c.matrix c.invMatrix target.x target.y
  (c.store.nodes.filter (fun node => decide (inNodeRect node localOffset))).map
    (fun n => n.id)

/-- `Canvas.clear()`: empty the selection set, then call `onUpdate`. -/
def Canvas.clear (c : Canvas) : Canvas :=
  { c with selected := [], updateCount := c.updateCount + 1 }

/-- `Canvas.selectedNode()`: the node stored under the LAST id of the
selection set, if any. -/
def Canvas.selectedNode (c : Canvas) : Option CanvasNode :=
  match c.selected.getLast? with
  | none => none
  | some i => c.store.retrieveNode i

/-- `Canvas.hoveredNode()`: the node stored under the LAST id of the hover
set, if any. -/
def Canvas.hoveredNode (c : Canvas) : Option CanvasNode :=
  match c.hovered.getLast? with
  | none => none
  | some i => c.store.retrieveNode i

/-- The node as repositioned by `moveNode`: `x` and `y` shifted by
`delta / scale`, every other field untouched. -/
def movedNode (node : CanvasNode) (delta : Offset) (scale : ℚ) : CanvasNode :=
  { node with x := node.x + delta.x / scale, y := node.y + delta.y / scale }

/-- `Canvas.moveNode(node, delta)`: add `delta / scale` to the node's
position and persist it through `Store.updateNode`. -/
def Canvas.moveNode (c : Canvas) (node : CanvasNode) (delta : Offset) : Canvas :=
  { c with store := c.store.updateNode (movedNode node delta c.scale) }

/-- `Canvas.checkHover(offset)`: clear the hover set, refill it from
`getSelection`, and set the cursor from whether a hovered node resolves. -/
def Canvas.checkHover (c : Canvas) (off : Offset) : Canvas :=
  let c1 : Canvas := { c with hovered := [] }
  let selection := c1.getSelection off
  let c2 : Canvas := { c1 with hovered := c1.hovered ++ selection }
  if c2.hoveredNode.isSome then { c2 with cursor := "pointer" }
  else { c2 with cursor := "default" }

/-- `Canvas.onWheel(e)`: with ctrl held, zoom (`scale -= deltaY * 0.01`);
otherwise pan (`offset -= delta * 2`); then call `onUpdate` and reset the
action to `NONE`. -/
def Canvas.onWheel (c : Canvas) (ctrlKey : Bool) (deltaX deltaY : ℚ) : Canvas :=
  let c1 : Canvas :=
    if ctrlKey then
      { c with action := PointerAction.ZOOM, scale := c.scale - deltaY * 0.01 }
    else
      { c with action := PointerAction.PAN,
               offset := ⟨c.offset.x - deltaX * 2, c.offset.y - deltaY * 2⟩ }
  let c2 : Canvas := { c1 with updateCount := c1.updateCount + 1 }
  { c2 with action := PointerAction.NONE }

/-- `Canvas.onMouseDown(e)`: record the press point as `lastOffset`, enter
`MOVE`, clear the selection (which already notifies), hit-test at the press
point, append the hits to the selection set, and call `onUpdate`. -/
def Canvas.onMouseDown (c : Canvas) (offsetX offsetY : ℚ) : Canvas :=
  let lastOff : Offset := ⟨offsetX, offsetY⟩
  let c1 : Canvas := { c with lastOffset := some lastOff, action := PointerAction.MOVE }
  let c2 : Canvas := c1.clear
  let selection := c2.getSelection lastOff
  let c3 : Canvas := { c2 with selected := c2.selected ++ selection }
  { c3 with updateCount := c3.updateCount + 1 }

/-- `Canvas.onMouseUp(_)`: drop `lastOffset` and return the action to `NONE`. -/
def Canvas.onMouseUp (c : Canvas) : Canvas :=
  { c with lastOffset := none, action := PointerAction.NONE }

/-- `Canvas.onMouseMove(e)`.  While in `MOVE` with a non-empty selection:
delta from `lastOffset`, move the primary selected node if it resolves, and
record the current point as the new `lastOffset`.  Otherwise run the hover
check.  The source dereferences `this.lastOffset!` under a non-null
assertion; a `MOVE` state with no recorded `lastOffset` would throw at
runtime, modelled by `none`. -/
def Canvas.onMouseMove (c : Canvas) (offsetX offsetY : ℚ) : Option Canvas :=
  if c.action = PointerAction.MOVE ∧ 0 < c.selected.length then
    match c.lastOffset with
    | none => none
    | some lo =>
      let delta : Offset := ⟨offsetX - lo.x, offsetY - lo.y⟩
      let c1 : Canvas :=
        match c.selectedNode with
        | some node => c.moveNode node delta
        | none => c
      some { c1 with lastOffset := some ⟨offsetX, offsetY⟩ }
  else
    some (c.checkHover ⟨offsetX, offsetY⟩)

/-- The geometry of one edge drawn by `renderEdge`: `moveTo(startX, startY)`
followed by `bezierCurveTo(c1x, c1y, c2x, c2y, endX, endY)`. -/
structure EdgeDraw where
  startX : ℚ
  startY : ℚ
  c1x : ℚ
  c1y : ℚ
  c2x : ℚ
  c2y : ℚ
  endX : ℚ
  endY : ℚ
deriving DecidableEq, Repr

/-- `Canvas.renderEdge(edge)`: looks up both endpoint nodes with non-null
assertions (`retrieveNode(...)!`).  When both resolve, it draws a cubic curve
between the node centers with control points offset by half of each node's
width.  When an endpoint does not resolve, the source dereferences
`undefined` and throws — modelled by `none`. -/
def renderEdge (s : Store) (edge : NodeEdge) : Option EdgeDraw :=
  match s.retrieveNode edge.startNode, s.retrieveNode edge.endNode with
  | some startNode, some endNode =>
    let sx := startNode.x + startNode.width / 2
    let sy := startNode.y + startNode.height / 2
    let ex := endNode.x + endNode.width / 2
    let ey := endNode.y + endNode.height / 2
    some ⟨sx, sy, sx + startNode.width / 2, sy, ex - endNode.width / 2, ey, ex, ey⟩
  | _, _ => none

/-- `Canvas.renderEdges()`: draw every edge in store order; an exception
thrown by `renderEdge` propagates and aborts the loop (and the frame),
modelled by the `Option` monad. -/
def renderEdges (s : Store) : Option (List EdgeDraw) :=
  s.edges.mapM (renderEdge s)

/-! ### Concrete states used by witnesses and counterexamples -/

/-- A node with id 1 at (0, 0), 10 × 10. -/
def node1 : CanvasNode := ⟨1, 0, 0, 10, 10, "a", none⟩

/-- A node with id 2 at (50, 0), 10 × 10. -/
def node2 : CanvasNode := ⟨2, 50, 0, 10, 10, "b", none⟩

/-- A canvas mid-drag: scale 2, `MOVE` action, node 1 selected, press point
recorded at the origin. -/
def dragCanvas : Canvas :=
  { Canvas.init ⟨[node1], []⟩ with
      scale := 2
      action := PointerAction.MOVE
      selected := [1]
      lastOffset := some ⟨0, 0⟩ }

/-- A canvas in `MOVE` action with an empty selection set and a stale hover
set. -/
def hoverCanvas : Canvas :=
  { Canvas.init ⟨[node1], []⟩ with
      action := PointerAction.MOVE
      hovered := [7] }

/-- A freshly initialized canvas over an empty store. -/
def emptyCanvas : Canvas := Canvas.init ⟨[], []⟩

/-- A canvas over a store with two disjoint nodes, identity transform. -/
def twoNodeCanvas : Canvas := Canvas.init ⟨[node1, node2], []⟩

/-- A store holding node 1 and an edge whose end node id 2 does not resolve. -/
def danglingStore : Store := ⟨[node1], [⟨1, 2⟩]⟩

/-- A store holding nodes 1 and 2 and an edge between them. -/
def okStore : Store := ⟨[node1, node2], [⟨1, 2⟩]⟩

/-! ### Theorems -/

/-- C1: for every scale `s > 0`, offset `(ox, oy)` and screen point
`(px, py)`, applying the forward matrix produced by
`createMatrix(ox, oy, s, 0)` and then `toWorld` on the cached inverse
returns the original point. -/
theorem createMatrix_toWorld_roundTrip (s ox oy px py : ℚ) (h : 0 < s) :
    toWorld (createMatrixRot0 ox oy s).1 (createMatrixRot0 ox oy s).2
      (applyMatrix (createMatrixRot0 ox oy s).1 px py).x
      (applyMatrix (createMatrixRot0 ox oy s).1 px py).y = ⟨px, py⟩ := by
  have hs : s ≠ 0 := ne_of_gt h
  simp only [createMatrixRot0, createMatrix, applyMatrix, toWorld, matrixCross]
  refine congrArg₂ Offset.mk ?_ ?_ <;> field_simp

/-- Witness for C1 at `s = 2`, offset `(3, 4)`, point `(5, 6)`. -/
theorem createMatrix_toWorld_roundTrip_witness :
    0 < (2 : ℚ) ∧
    toWorld (createMatrixRot0 3 4 2).1 (createMatrixRot0 3 4 2).2
      (applyMatrix (createMatrixRot0 3 4 2).1 5 6).x
      (applyMatrix (createMatrixRot0 3 4 2).1 5 6).y = ⟨5, 6⟩ :=
  ⟨by norm_num, createMatrix_toWorld_roundTrip 2 3 4 5 6 (by norm_num)⟩

/-- C4: a wheel event with ctrl held decreases the scale by
`deltaY * 0.01` and leaves the offset unchanged; without ctrl it decreases
the offset by `(deltaX * 2, deltaY * 2)` and leaves the scale unchanged; in
both cases the action is `NONE` when the handler returns. -/
theorem onWheel_zoom_pan (c : Canvas) (dx dy : ℚ) :
    ((c.onWheel true dx dy).scale = c.scale - dy * 0.01 ∧
      (c.onWheel true dx dy).offset = c.offset ∧
      (c.onWheel true dx dy).action = PointerAction.NONE) ∧
    ((c.onWheel false dx dy).offset = ⟨c.offset.x - dx * 2, c.offset.y - dy * 2⟩ ∧
      (c.onWheel false dx dy).scale = c.scale ∧
      (c.onWheel false dx dy).action = PointerAction.NONE) :=
  ⟨⟨rfl, rfl, rfl⟩, ⟨rfl, rfl, rfl⟩⟩

/-- C9: a release event drops `lastOffset`, returns the action to `NONE`,
and leaves the selection set (and everything else) unchanged, from any
state. -/
theorem onMouseUp_clears_drag (c : Canvas) :
    c.onMouseUp.lastOffset = none ∧
    c.onMouseUp.action = PointerAction.NONE ∧
    c.onMouseUp.selected = c.selected ∧
    c.onMouseUp.hovered = c.hovered ∧
    c.onMouseUp.store = c.store ∧
    c.onMouseUp.scale = c.scale ∧
    c.onMouseUp.offset = c.offset :=
  ⟨rfl, rfl, rfl, rfl, rfl, rfl, rfl⟩

/-- C7 counterexample: a pointer-move event that drags a node (state
`dragCanvas`: `MOVE`, selection `[1]`, recorded last offset) mutates the
store but does NOT invoke `onUpdate` — the count is unchanged. -/
theorem drag_does_not_notify :
    (dragCanvas.onMouseMove 20 20).map Canvas.updateCount =
        some dragCanvas.updateCount ∧
    (dragCanvas.onMouseMove 20 20).map Canvas.store ≠ some dragCanvas.store := by
  refine ⟨rfl, ?_⟩
  norm_num [dragCanvas, Canvas.init, node1, Canvas.onMouseMove, Canvas.selectedNode,
    Canvas.moveNode, movedNode, Store.updateNode, Store.retrieveNode]

/-- C7 as amended: `onUpdate` is invoked at least once by the end of every
wheel event, every press event, and every `clear`; pointer-move drag
handling does not invoke it. -/
theorem onUpdate_on_wheel_press_clear (c : Canvas) (ctrl : Bool) (dx dy px py : ℚ) :
    c.updateCount < (c.onWheel ctrl dx dy).updateCount ∧
    c.updateCount < (c.onMouseDown px py).updateCount ∧
    c.updateCount < c.clear.updateCount := by
  refine ⟨?_, ?_, ?_⟩
  · cases ctrl <;> simp [Canvas.onWheel]
  · simp [Canvas.onMouseDown, Canvas.clear]
    omega
  · simp [Canvas.clear]

/-- C5: the code does not clamp the scale.  From the initial state (scale 1),
a single ctrl-wheel event with `deltaY = 100` drives the scale to exactly 0;
the cross term of `createMatrix` at that scale is 0, so the divisions
deriving the inverse matrix are not well-defined (in this ℚ model division
by zero yields 0, collapsing the inverse and breaking the round trip). -/
theorem wheel_scale_reaches_zero :
    (emptyCanvas.onWheel true 0 100).scale = 0 ∧
    matrixCross (emptyCanvas.onWheel true 0 100).scale 1 0 = 0 ∧
    toWorld (createMatrixRot0 0 0 (emptyCanvas.onWheel true 0 100).scale).1
        (createMatrixRot0 0 0 (emptyCanvas.onWheel true 0 100).scale).2
        (applyMatrix (createMatrixRot0 0 0 (emptyCanvas.onWheel true 0 100).scale).1 5 5).x
        (applyMatrix (createMatrixRot0 0 0 (emptyCanvas.onWheel true 0 100).scale).1 5 5).y ≠
      ⟨5, 5⟩ := by
  have h : (emptyCanvas.onWheel true 0 100).scale = 0 := by
    norm_num [Canvas.onWheel, emptyCanvas, Canvas.init]
  refine ⟨h, ?_, ?_⟩
  · rw [h]
    norm_num [matrixCross]
  · rw [h]
    norm_num [createMatrixRot0, createMatrix, matrixCross, toWorld, applyMatrix,
      Offset.mk.injEq]

/-- C6: `renderEdge` does not skip an edge whose endpoint id fails to
resolve; the non-null assertion dereference fails (modelled `none`) and
aborts the whole `renderEdges` pass, while a store in which both endpoints
resolve has its edge drawn. -/
theorem renderEdge_dangling_fails :
    renderEdge danglingStore ⟨1, 2⟩ = none ∧
    renderEdges danglingStore = none ∧
    renderEdges okStore = some [⟨5, 5, 10, 5, 50, 5, 55, 5⟩] := by
  refine ⟨rfl, rfl, ?_⟩
  norm_num [renderEdges, renderEdge, okStore, node1, node2, Store.retrieveNode,
    List.mapM, List.mapM.loop]

/-- C2: under the store invariant that node ids are unique, `getSelection`
returns a subsequence of the store's ids (iteration order preserved), and a
node's id is returned exactly when the world-space image of the screen point
lies in the node's rectangle with all four bounds inclusive. -/
theorem getSelection_inclusive_hits (c : Canvas) (target : Offset)
    (hN : (c.store.nodes.map CanvasNode.id).Nodup) :
    (c.getSelection target).Sublist (c.store.nodes.map CanvasNode.id) ∧
    ∀ n ∈ c.store.nodes,
      (n.id ∈ c.getSelection target ↔
        inNodeRect n (toWorld c.matrix c.invMatrix target.x target.y)) := by
  constructor
  · exact (List.filter_sublist _).map _
  · intro n hn
    unfold Canvas.getSelection
    simp only [List.mem_map, List.mem_filter, decide_eq_true_eq]
    constructor
    · rintro ⟨m, ⟨hm, hpm⟩, hid⟩
      rwa [List.inj_on_of_nodup_map hN hm hn hid] at hpm
    · intro hP
      exact ⟨n, ⟨hn, hP⟩, rfl⟩

/-- Witness for C2 on a two-node store with the identity transform, probing
the point `(5, 5)` inside node 1. -/
theorem getSelection_inclusive_hits_witness :
    (twoNodeCanvas.store.nodes.map CanvasNode.id).Nodup ∧
    ((twoNodeCanvas.getSelection ⟨5, 5⟩).Sublist
        (twoNodeCanvas.store.nodes.map CanvasNode.id) ∧
      ∀ n ∈ twoNodeCanvas.store.nodes,
        (n.id ∈ twoNodeCanvas.getSelection ⟨5, 5⟩ ↔
          inNodeRect n (toWorld twoNodeCanvas.matrix twoNodeCanvas.invMatrix 5 5))) :=
  ⟨by decide, getSelection_inclusive_hits twoNodeCanvas ⟨5, 5⟩ (by decide)⟩

/-- C3: a pointer-move event in `MOVE` state with a non-empty selection set,
a recorded last offset and a resolvable primary selected node (the LAST
element of the selection set) moves exactly that node by the screen delta
divided by the current scale, persists it through `Store.updateNode`, and
replaces the last offset by the current point. -/
theorem onMouseMove_drag (c : Canvas) (px py : ℚ) (lo : Offset) (node : CanvasNode)
    (hact : c.action = PointerAction.MOVE)
    (hsel : 0 < c.selected.length)
    (hlo : c.lastOffset = some lo)
    (hnode : c.selectedNode = some node) :
    c.onMouseMove px py =
      some { c with
        store := c.store.updateNode (movedNode node ⟨px - lo.x, py - lo.y⟩ c.scale)
        lastOffset := some ⟨px, py⟩ } := by
  unfold Canvas.onMouseMove
  rw [if_pos ⟨hact, hsel⟩]
  simp only [hlo, hnode]
  rfl

/-- Witness for C3: the drag of Scenario 3 — scale 2, screen delta `(20, 20)`,
node 1 moves by world delta `(10, 10)`. -/
theorem onMouseMove_drag_witness :
    dragCanvas.action = PointerAction.MOVE ∧
    0 < dragCanvas.selected.length ∧
    dragCanvas.lastOffset = some ⟨0, 0⟩ ∧
    dragCanvas.selectedNode = some node1 ∧
    dragCanvas.onMouseMove 20 20 =
      some { dragCanvas with
        store := dragCanvas.store.updateNode
          (movedNode node1 ⟨20 - (0 : ℚ), 20 - (0 : ℚ)⟩ dragCanvas.scale)
        lastOffset := some ⟨20, 20⟩ } :=
  ⟨rfl, by decide, rfl, rfl,
    onMouseMove_drag dragCanvas 20 20 ⟨0, 0⟩ node1 rfl (by decide) rfl rfl⟩

/-- C8 counterexample: in `MOVE` state with an empty selection set, a
pointer-move event does NOT leave the state unchanged — the hover set `[7]`
is replaced by the hover hit-test result. -/
theorem moveEmptySelection_changes_hover :
    hoverCanvas.action = PointerAction.MOVE ∧
    hoverCanvas.selected = [] ∧
    (hoverCanvas.onMouseMove 100 100).map Canvas.hovered ≠
      some hoverCanvas.hovered := by
  refine ⟨rfl, rfl, ?_⟩
  norm_num [hoverCanvas, Canvas.init, node1, Canvas.onMouseMove, Canvas.checkHover,
    Canvas.getSelection, Canvas.hoveredNode, toWorld, inNodeRect, Store.retrieveNode]

/-- C8 as amended: a pointer-move event in `MOVE` state with an empty
selection set leaves selection, store (node positions), last offset, scale,
offset and action unchanged, but performs the hover hit-test: the hover set
is replaced wholesale by the hits at the current point. -/
theorem onMouseMove_emptySelection (c : Canvas) (px py : ℚ)
    (hact : c.action = PointerAction.MOVE) (hsel : c.selected = []) :
    c.onMouseMove px py = some (c.checkHover ⟨px, py⟩) ∧
    (c.checkHover ⟨px, py⟩).selected = c.selected ∧
    (c.checkHover ⟨px, py⟩).store = c.store ∧
    (c.checkHover ⟨px, py⟩).lastOffset = c.lastOffset ∧
    (c.checkHover ⟨px, py⟩).scale = c.scale ∧
    (c.checkHover ⟨px, py⟩).offset = c.offset ∧
    (c.checkHover ⟨px, py⟩).action = c.action ∧
    (c.checkHover ⟨px, py⟩).hovered = c.getSelection ⟨px, py⟩ := by
  have h1 : c.onMouseMove px py = some (c.checkHover ⟨px, py⟩) := by
    unfold Canvas.onMouseMove
    rw [if_neg]
    intro hcon
    rw [hsel] at hcon
    exact absurd hcon.2 (by decide)
  refine ⟨h1, ?_, ?_, ?_, ?_, ?_, ?_, ?_⟩ <;>
    (unfold Canvas.checkHover; dsimp only; split <;> rfl)

/-- Witness for C8 (amended) at the state `hoverCanvas` and point `(3, 4)`. -/
theorem onMouseMove_emptySelection_witness :
    hoverCanvas.onMouseMove 3 4 = some (hoverCanvas.checkHover ⟨3, 4⟩) ∧
    (hoverCanvas.checkHover ⟨3, 4⟩).selected = hoverCanvas.selected ∧
    (hoverCanvas.checkHover ⟨3, 4⟩).store = hoverCanvas.store ∧
    (hoverCanvas.checkHover ⟨3, 4⟩).lastOffset = hoverCanvas.lastOffset ∧
    (hoverCanvas.checkHover ⟨3, 4⟩).scale = hoverCanvas.scale ∧
    (hoverCanvas.checkHover ⟨3, 4⟩).offset = hoverCanvas.offset ∧
    (hoverCanvas.checkHover ⟨3, 4⟩).action = hoverCanvas.action ∧
    (hoverCanvas.checkHover ⟨3, 4⟩).hovered = hoverCanvas.getSelection ⟨3, 4⟩ :=
  onMouseMove_emptySelection hoverCanvas 3 4 rfl rfl

/-- C10: `moveNode` changes only the x and y of the targeted node: the
updated node keeps its id, width, height, name and background color, every
store node with a different id is untouched, the edges are untouched, and
the canvas's scale, offset, selection set, hover set and both transform
matrices are unchanged. -/
theorem moveNode_frame (c : Canvas) (node : CanvasNode) (delta : Offset) :
    (c.moveNode node delta).scale = c.scale ∧
    (c.moveNode node delta).offset = c.offset ∧
    (c.moveNode node delta).selected = c.selected ∧
    (c.moveNode node delta).hovered = c.hovered ∧
    (c.moveNode node delta).matrix = c.matrix ∧
    (c.moveNode node delta).invMatrix = c.invMatrix ∧
    (c.moveNode node delta).store.edges = c.store.edges ∧
    (c.moveNode node delta).store.nodes = c.store.nodes.map (fun m =>
        if m.id = node.id then movedNode node delta c.scale else m) ∧
    (∀ m ∈ c.store.nodes, m.id ≠ node.id → m ∈ (c.moveNode node delta).store.nodes) ∧
    (movedNode node delta c.scale).id = node.id ∧
    (movedNode node delta c.scale).width = node.width ∧
    (movedNode node delta c.scale).height = node.height ∧
    (movedNode node delta c.scale).name = node.name ∧
    (movedNode node delta c.scale).backgroundColor = node.backgroundColor := by
  refine ⟨rfl, rfl, rfl, rfl, rfl, rfl, rfl, rfl, ?_, rfl, rfl, rfl, rfl, rfl⟩
  intro m hm hne
  unfold Canvas.moveNode Store.updateNode
  simp only [List.mem_map]
  refine ⟨m, hm, ?_⟩
  rw [if_neg]
  simpa [movedNode] using hne

/-- Witness for C10 at the two-node canvas, moving node 1 by `(3, 4)`. -/
theorem moveNode_frame_witness :
    (twoNodeCanvas.moveNode node1 ⟨3, 4⟩).scale = twoNodeCanvas.scale ∧
    (twoNodeCanvas.moveNode node1 ⟨3, 4⟩).offset = twoNodeCanvas.offset ∧
    (twoNodeCanvas.moveNode node1 ⟨3, 4⟩).selected = twoNodeCanvas.selected ∧
    (twoNodeCanvas.moveNode node1 ⟨3, 4⟩).hovered = twoNodeCanvas.hovered ∧
    (twoNodeCanvas.moveNode node1 ⟨3, 4⟩).matrix = twoNodeCanvas.matrix ∧
    (twoNodeCanvas.moveNode node1 ⟨3, 4⟩).invMatrix = twoNodeCanvas.invMatrix ∧
    (twoNodeCanvas.moveNode node1 ⟨3, 4⟩).store.edges = twoNodeCanvas.store.edges ∧
    (twoNodeCanvas.moveNode node1 ⟨3, 4⟩).store.nodes =
      twoNodeCanvas.store.nodes.map (fun m =>
        if m.id = node1.id then movedNode node1 ⟨3, 4⟩ twoNodeCanvas.scale else m) ∧
    (∀ m ∈ twoNodeCanvas.store.nodes, m.id ≠ node1.id →
      m ∈ (twoNodeCanvas.moveNode node1 ⟨3, 4⟩).store.nodes) ∧
    (movedNode node1 ⟨3, 4⟩ twoNodeCanvas.scale).id = node1.id ∧
    (movedNode node1 ⟨3, 4⟩ twoNodeCanvas.scale).width = node1.width ∧
    (movedNode node1 ⟨3, 4⟩ twoNodeCanvas.scale).height = node1.height ∧
    (movedNode node1 ⟨3, 4⟩ twoNodeCanvas.scale).name = node1.name ∧
    (movedNode node1 ⟨3, 4⟩ twoNodeCanvas.scale).backgroundColor = node1.backgroundColor :=
  moveNode_frame twoNodeCanvas node1 ⟨3, 4⟩
